import Mathlib

/-!
Verification development for the Plantos MCP server repository.

The embedding covers:
* the response formatters of `src/plantos_mcp/server.py` (`_format_soil_data`,
  `_format_weather_data`, `_format_crop_predictions`, `_format_market_data`,
  `_format_economic_analysis`, `_format_recommendations`, `_format_dict_recursive`);
* the tool dispatcher `handle_call_tool` of the same file, modelled as a pure
  function from the tool name, the arguments, the ambient API key and the
  backend's reply to the list of HTTP requests issued and the text returned;
* the HTTP transport handler `http_call_tool`, together with a small
  interleaving semantics for the shared module global `PLANTOS_API_KEY` that it
  mutates around each request;
* the device-authorization flow `authenticate_user` of `installer/auth.py`.

JSON values are modelled with rational numbers standing in for Python's
int/float payload numbers; Python string formatting of numbers is modelled by
explicit rendering functions.  Fallible Python code (KeyError, raise_for_status,
transport exceptions) is modelled with an `Except` monad whose error type
mirrors the exception classes the source distinguishes.  The JSON type is a
mutual inductive (value / array / object) so that every function on it is
structurally recursive and closed instances evaluate definitionally.
-/

namespace Plantos

mutual

/-- JSON values as delivered by `response.json()` / MCP argument maps.
Numbers are rationals (Python ints and floats). -/
inductive Json where
  | null
  | bool (b : Bool)
  | num (q : Rat)
  | str (s : String)
  | arr (items : JsonList)
  | obj (fields : JsonObj)

/-- A JSON array. -/
inductive JsonList where
  | nil
  | cons (head : Json) (tail : JsonList)

/-- A JSON object / Python dict; fields keep their arrival order, as Python
dicts do. -/
inductive JsonObj where
  | nil
  | cons (key : String) (value : Json) (tail : JsonObj)

end

/-- Python dictionaries from string keys to JSON values (argument maps,
parsed payload objects). -/
abbrev Obj := JsonObj

/-- Emptiness of a JSON array. -/
def JsonList.isEmpty : JsonList → Bool
  | .nil => true
  | .cons _ _ => false

/-- A JSON array as a Lean list of values. -/
def JsonList.toList : JsonList → List Json
  | .nil => []
  | .cons h t => h :: t.toList

/-- Emptiness of a JSON object. -/
def JsonObj.isEmpty : JsonObj → Bool
  | .nil => true
  | .cons _ _ _ => false

/-- First binding of a key in a JSON object (`d[k]` / `d.get(k)` lookup). -/
def JsonObj.lookup : JsonObj → String → Option Json
  | .nil, _ => none
  | .cons key value tail, k => if key = k then some value else tail.lookup k

/-- Builds a JSON object from a Lean association list (notation helper). -/
def JsonObj.ofList : List (String × Json) → JsonObj
  | [] => .nil
  | (k, v) :: rest => .cons k v (JsonObj.ofList rest)

/-- Builds a JSON array from a Lean list (notation helper). -/
def JsonList.ofList : List Json → JsonList
  | [] => .nil
  | v :: rest => .cons v (JsonList.ofList rest)

/-- Python truthiness (`if x:`) for JSON-shaped values: None, False, 0, the
empty string, the empty list and the empty dict are falsy. -/
def Json.truthy : Json → Bool
  | .null => false
  | .bool b => b
  | .num q => q != 0
  | .str s => s != ""
  | .arr items => !items.isEmpty
  | .obj fields => !fields.isEmpty

/-- `d.get(k, default)` on a value known to be a dict; on non-dict values the
default is returned (the Python call sites that reach this with a non-dict are
not exercised by any claim). -/
def Json.getD (j : Json) (k : String) (d : Json) : Json :=
  match j with
  | .obj fields => (fields.lookup k).getD d
  | _ => d

mutual

/-- Rendering of a value into an f-string, matching Python's `str` on scalars.
Containers are rendered structurally; `Rat` notation stands in for Python's
float notation. -/
def Json.render : Json → String
  | Json.null => "None"
  | Json.bool b => if b then "True" else "False"
  | Json.num q => toString q
  | Json.str s => s
  | Json.arr items => "[" ++ String.intercalate ", " (JsonList.renderEach items) ++ "]"
  | Json.obj fields => "\x7b" ++ String.intercalate ", " (JsonObj.renderEach fields) ++ "\x7d"

/-- Renders each element of an array. -/
def JsonList.renderEach : JsonList → List String
  | .nil => []
  | .cons h t => Json.render h :: JsonList.renderEach t

/-- Renders each binding of an object. -/
def JsonObj.renderEach : JsonObj → List String
  | .nil => []
  | .cons k v t => (k ++ ": " ++ Json.render v) :: JsonObj.renderEach t

end

/-- Python `str.title()` (word-initial characters upper-cased, the rest
lower-cased). -/
def pyTitle (s : String) : String :=
  String.mk
    ((s.data.foldl
        (fun (acc : List Char × Bool) c =>
          ((if acc.2 then c.toLower else c.toUpper) :: acc.1, c.isAlpha))
        ([], false)).1.reverse)

/-- Zero-padding for fixed-point rendering. -/
def padZeros (s : String) (w : Nat) : String :=
  String.join (List.replicate (w - s.length) "0") ++ s

/-- Rounding to the nearest integer (half up), standing in for Python's float
rounding in `format`. -/
def ratRound (q : Rat) : Int :=
  (q + 1/2).floor

/-- Python `format(q, ".<digits>f")` on a rational. -/
def ratFixed (q : Rat) (digits : Nat) : String :=
  let scale : Int := (10 : Int) ^ digits
  let n : Int := ratRound (q * (scale : Rat))
  let sign := if n < 0 then "-" else ""
  let m := n.natAbs
  if digits = 0 then
    sign ++ toString m
  else
    sign ++ toString (m / scale.natAbs) ++ "." ++ padZeros (toString (m % scale.natAbs)) digits

/-- Fixed-point rendering of a JSON value (the default `0` at the Python call
sites makes the argument a number whenever the payload omits the field). -/
def jsonFixed (j : Json) (digits : Nat) : String :=
  match j with
  | .num q => ratFixed q digits
  | v => v.render

/-- Python `f"{x:.0%}"`. -/
def jsonPct0 (j : Json) : String :=
  match j with
  | .num q => ratFixed (q * 100) 0 ++ "%"
  | v => v.render ++ "%"

/-- A line emitted when `d.get(k)` is truthy (the `if soil.get(x):` pattern). -/
def lineIfTruthy (fields : Obj) (k : String) (f : Json → String) : List String :=
  match fields.lookup k with
  | some v => if v.truthy then [f v] else []
  | none => []

/-- A line emitted when `d.get(k) is not None`. -/
def lineIfNotNone (fields : Obj) (k : String) (f : Json → String) : List String :=
  match fields.lookup k with
  | some .null => []
  | some v => [f v]
  | none => []

/-- `server.py` `_format_soil_data`. -/
def _format_soil_data (soil : Obj) : String :=
  if soil.isEmpty then "*No soil data available*"
  else
    let lines :=
      lineIfTruthy soil "soil_texture" (fun v => "**Texture:** " ++ v.render) ++
      lineIfTruthy soil "drainage_class" (fun v => "**Drainage:** " ++ v.render) ++
      lineIfTruthy soil "ph_level" (fun v => "**pH Level:** " ++ v.render) ++
      lineIfTruthy soil "organic_matter_pct" (fun v => "**Organic Matter:** " ++ v.render ++ "%") ++
      lineIfNotNone soil "sand_pct" (fun v => "**Sand:** " ++ v.render ++ "%") ++
      lineIfNotNone soil "silt_pct" (fun v => "**Silt:** " ++ v.render ++ "%") ++
      lineIfNotNone soil "clay_pct" (fun v => "**Clay:** " ++ v.render ++ "%")
    if lines.isEmpty then "*Soil data incomplete*" else String.intercalate "\n" lines

/-- `server.py` `_format_weather_data`. -/
def _format_weather_data (weather : Obj) : String :=
  if weather.isEmpty then "*No weather data available*"
  else
    let lines :=
      lineIfTruthy weather "current_temperature" (fun v => "**Temperature:** " ++ v.render ++ "°F") ++
      lineIfTruthy weather "max_temperature" (fun v => "**Max Temp:** " ++ v.render ++ "°F") ++
      lineIfTruthy weather "min_temperature" (fun v => "**Min Temp:** " ++ v.render ++ "°F") ++
      lineIfTruthy weather "avg_relative_humidity" (fun v => "**Humidity:** " ++ v.render ++ "%") ++
      lineIfTruthy weather "total_precipitation" (fun v => "**Precipitation:** " ++ v.render ++ " inches") ++
      lineIfTruthy weather "growing_degree_days" (fun v => "**Growing Degree Days:** " ++ v.render) ++
      lineIfTruthy weather "wind_speed_mph" (fun v => "**Wind Speed:** " ++ v.render ++ " mph")
    if lines.isEmpty then "*Weather data incomplete*" else String.intercalate "\n" lines

/-- `server.py` `_format_crop_predictions` (items are the per-crop dicts). -/
def _format_crop_predictions (predictions : List Obj) : String :=
  if predictions.isEmpty then "*No predictions available*"
  else
    String.intercalate "\n"
      (predictions.map (fun pred =>
        let crop_name := pyTitle ((pred.lookup "crop_type").getD (.str "Unknown")).render
        let yield_val := (pred.lookup "predicted_yield").getD (.num 0)
        let confidence := (pred.lookup "confidence_interval").getD (.obj .nil)
        let line := "**" ++ crop_name ++ ":** " ++ jsonFixed yield_val 1 ++ " bushels/acre"
        if confidence.truthy then
          line ++ " (range: " ++ jsonFixed (confidence.getD "lower" (.num 0)) 1 ++
            " - " ++ jsonFixed (confidence.getD "upper" (.num 0)) 1 ++ ")"
        else line))

/-- `server.py` `_format_market_data` (keeps the source's `isinstance(item, dict)`
guard: non-dict items contribute nothing). -/
def _format_market_data (market_data : List Json) : String :=
  if market_data.isEmpty then "*No market data available*"
  else
    String.intercalate "\n"
      (List.flatten (market_data.map (fun item =>
        match item with
        | .obj fs =>
            let crop := pyTitle ((fs.lookup "crop_type").getD (.str "Unknown")).render
            let current := (fs.lookup "current_price").getD (.num 0)
            let futures := (fs.lookup "futures_price").getD (.num 0)
            let trend := (fs.lookup "price_trend").getD (.str "unknown")
            ["**" ++ crop ++ ":**",
             "  - Current: $" ++ jsonFixed current 2 ++ "/bu",
             "  - Futures: $" ++ jsonFixed futures 2 ++ "/bu",
             "  - Trend: " ++ trend.render,
             ""]
        | _ => [])))

/-- `server.py` `_format_economic_analysis`. -/
def _format_economic_analysis (economics : List Obj) : String :=
  if economics.isEmpty then "*No economic analysis available*"
  else
    String.intercalate "\n"
      (List.flatten (economics.map (fun econ =>
        let crop := pyTitle ((econ.lookup "crop_type").getD (.str "Unknown")).render
        let revenue := (econ.lookup "estimated_revenue_per_acre").getD (.num 0)
        let costs := (econ.lookup "estimated_input_costs").getD (.num 0)
        let profit := (econ.lookup "net_profit_per_acre").getD (.num 0)
        let roi := (econ.lookup "roi_percentage").getD (.num 0)
        ["**" ++ crop ++ ":**",
         "  - Revenue: $" ++ jsonFixed revenue 2 ++ "/acre",
         "  - Costs: $" ++ jsonFixed costs 2 ++ "/acre",
         "  - Profit: $" ++ jsonFixed profit 2 ++ "/acre",
         "  - ROI: " ++ jsonFixed roi 1 ++ "%",
         ""])))

/-- `server.py` `_format_recommendations`. -/
def _format_recommendations (recommendations : List Json) : String :=
  if recommendations.isEmpty then "*No recommendations available*"
  else String.intercalate "\n" (recommendations.map (fun r => "- " ++ r.render))

/-- Python `key.replace('_', ' ')` (the single-character replacement the
source performs on dict keys). -/
def replaceUnderscores (s : String) : String :=
  String.mk (s.data.map (fun c => if c = '_' then ' ' else c))

/-- The indentation string `"  " * indent`. -/
def indentPad (indent : Nat) : String :=
  String.join (List.replicate indent "  ")

mutual

/-- The per-binding lines of `server.py` `_format_dict_recursive` (a nested
dict contributes its whole rendering, joined, as one line entry, exactly as
the source appends the recursive call's result to `lines`). -/
def fmtDictLines : JsonObj → Nat → List String
  | .nil, _ => []
  | .cons key value tail, indent =>
      (let formatted_key := pyTitle (replaceUnderscores key)
       match value with
       | Json.obj f2 =>
           [indentPad indent ++ "**" ++ formatted_key ++ ":**",
            String.intercalate "\n" (fmtDictLines f2 (indent + 1))]
       | Json.arr items =>
           (indentPad indent ++ "**" ++ formatted_key ++ ":**") ::
             fmtListLines items indent
       | v => [indentPad indent ++ "**" ++ formatted_key ++ ":** " ++ v.render]) ++
      fmtDictLines tail indent
  termination_by structural data _ => data

/-- The per-item lines for a list-valued binding. -/
def fmtListLines : JsonList → Nat → List String
  | .nil, _ => []
  | .cons item tail, indent =>
      (match item with
       | Json.obj f3 => [String.intercalate "\n" (fmtDictLines f3 (indent + 1))]
       | v => [indentPad indent ++ "  - " ++ v.render]) ++
      fmtListLines tail indent
  termination_by structural items _ => items

end

/-- `server.py` `_format_dict_recursive`. -/
def _format_dict_recursive (data : Obj) (indent : Nat) : String :=
  String.intercalate "\n" (fmtDictLines data indent)

/-! ## The tool dispatcher `handle_call_tool` -/

/-- HTTP method of a backend call (`client.get` / `client.post`). -/
inductive Method where
  | get
  | post
deriving DecidableEq

/-- One outbound backend HTTP call: method, full URL, query parameters
(`params=`), JSON body (`json=`) and headers. -/
structure Request where
  method : Method
  url : String
  params : List (String × Json)
  reqBody : Option Json
  headers : List (String × String)

/-- The header dict built at the top of `handle_call_tool`. -/
def stdHeaders (apiKey : String) : List (String × String) :=
  [("X-API-Key", apiKey), ("Content-Type", "application/json")]

/-- The exception classes the source distinguishes: `KeyError` from argument
indexing, `httpx.HTTPStatusError` from `raise_for_status`, transport failures
from the client call, and any other exception caught by the trailing
`except Exception`. -/
inductive PyError where
  | keyError (k : String)
  | httpStatus (statusCode : Nat) (text : String)
  | transport (msg : String)
  | other (msg : String)

/-- What the backend produces for one request: an HTTP response (status code,
parsed JSON body, raw text) or a transport-level exception. -/
inductive BackendReply where
  | ok (statusCode : Nat) (jsonBody : Json) (text : String)
  | exn (msg : String)

/-- `arguments[k]`: a missing key raises `KeyError(k)`. -/
def requireArg (args : Obj) (k : String) : Except PyError Json :=
  match args.lookup k with
  | some v => .ok v
  | none => .error (.keyError k)

/-- `response.raise_for_status()`: any non-2xx status raises `HTTPStatusError`
carrying the status code and the response text. -/
def raise_for_status (statusCode : Nat) (text : String) : Except PyError Unit :=
  if 200 ≤ statusCode ∧ statusCode ≤ 299 then .ok () else .error (.httpStatus statusCode text)

/-- `d.get(k, default)` where `d` may be any payload value: non-dicts raise
`AttributeError`. -/
def pyGetAttr (j : Json) (k : String) (d : Json) : Except PyError Json :=
  match j with
  | .obj fields => .ok ((fields.lookup k).getD d)
  | _ => .error (.other "object has no attribute get")

/-- `d[k]`: a dict without the key raises `KeyError`; a non-dict raises. -/
def pyIndex (j : Json) (k : String) : Except PyError Json :=
  match j with
  | .obj fields =>
      match fields.lookup k with
      | some v => .ok v
      | none => .error (.keyError k)
  | _ => .error (.other "object is not subscriptable")

/-- Passing a payload value into a formatter that starts with an `if not x:`
guard and then treats `x` as a dict: falsy values take the guard, truthy
non-dicts raise on the first `.get`. -/
def pyDictArg : Json → Except PyError Obj
  | .obj fields => .ok fields
  | v => if v.truthy then .error (.other "object has no attribute get") else .ok .nil

/-- Same pattern for formatters iterating a list. -/
def pyListArg : Json → Except PyError (List Json)
  | .arr items => .ok items.toList
  | v => if v.truthy then .error (.other "object is not iterable") else .ok []

/-- A list item used as a dict inside a formatter loop (`pred.get(...)`):
any non-dict item raises. -/
def pyDictItem : Json → Except PyError Obj
  | .obj fields => .ok fields
  | _ => .error (.other "object has no attribute get")

/-- `k in d` for a payload value. -/
def jsonHasKey (j : Json) (k : String) : Bool :=
  match j with
  | .obj fields => (fields.lookup k).isSome
  | _ => false

/-- Success rendering of the `analyze_farm_location` branch. -/
def analyzeLocationText (lat lon : Json) (data : Json) : Except PyError String := do
  let soilV ← pyGetAttr data "soil_properties" (.obj .nil)
  let soil ← pyDictArg soilV
  let weatherV ← pyGetAttr data "weather_data" (.obj .nil)
  let weather ← pyDictArg weatherV
  let predsV ← pyGetAttr data "crop_predictions" (.arr .nil)
  let predsL ← pyListArg predsV
  let preds ← predsL.mapM pyDictItem
  let marketV ← pyGetAttr data "market_data" (.arr .nil)
  let market ← pyListArg marketV
  let econV ← pyGetAttr data "economic_analysis" (.arr .nil)
  let econL ← pyListArg econV
  let econ ← econL.mapM pyDictItem
  let recsV ← pyGetAttr data "recommendations" (.arr .nil)
  let recs ← pyListArg recsV
  let ts ← pyGetAttr data "analysis_timestamp" (.str "N/A")
  pure ("# Farm Location Analysis\n\n**Location:** " ++ lat.render ++ ", " ++ lon.render ++
    "\n\n## Soil Properties\n" ++ _format_soil_data soil ++
    "\n\n## Weather Conditions\n" ++ _format_weather_data weather ++
    "\n\n## Crop Yield Predictions\n" ++ _format_crop_predictions preds ++
    "\n\n## Market Data\n" ++ _format_market_data market ++
    "\n\n## Economic Analysis\n" ++ _format_economic_analysis econ ++
    "\n\n## Recommendations\n" ++ _format_recommendations recs ++
    "\n\n---\n*Analysis generated at " ++ ts.render ++ "*\n")

/-- Success rendering of the `get_soil_data` branch. -/
def soilDataText (lat lon : Json) (data : Json) : Except PyError String := do
  let soil ← pyDictArg data
  pure ("# Soil Data for " ++ lat.render ++ ", " ++ lon.render ++ "\n\n" ++
    _format_soil_data soil ++ "\n")

/-- Success rendering of the `get_weather_data` branch. -/
def weatherDataText (lat lon : Json) (data : Json) : Except PyError String := do
  let source ← pyGetAttr data "source" (.str "N/A")
  let weatherV ← pyGetAttr data "weather" (.obj .nil)
  let weather ← pyDictArg weatherV
  let note ← pyGetAttr data "note" (.str "")
  pure ("# Weather Data for " ++ lat.render ++ ", " ++ lon.render ++
    "\n\n**Source:** " ++ source.render ++ "\n\n" ++ _format_weather_data weather ++
    "\n\n" ++ note.render ++ "\n")

/-- Success rendering of the `get_market_data` branch. -/
def marketDataText (data : Json) : Except PyError String := do
  let locInfo ← pyGetAttr data "location_info" (.obj .nil)
  let flag ← pyGetAttr locInfo "regional_adjustments_applied" .null
  let location_note ←
    if flag.truthy then do
      let li ← pyIndex data "location_info"
      let lat ← pyIndex li "latitude"
      let lon ← pyIndex li "longitude"
      pure ("\n*Regional price adjustments applied for " ++ lat.render ++ ", " ++
        lon.render ++ "*")
    else pure ""
  let cropsV ← pyGetAttr data "crops" (.arr .nil)
  let crops ← pyListArg cropsV
  let lastUpd ← pyGetAttr data "last_updated" (.str "N/A")
  let note ← pyGetAttr data "note" (.str "")
  pure ("# Market Data\n\n" ++ _format_market_data crops ++
    "\n\n**Last Updated:** " ++ lastUpd.render ++ "\n" ++ note.render ++ "\n" ++
    location_note ++ "\n")

/-- `data.items()`: only dicts have it. -/
def pyDictStrict : Json → Except PyError Obj
  | .obj fields => .ok fields
  | _ => .error (.other "object has no attribute items")

/-- Success rendering of the `get_market_summary` branch. -/
def marketSummaryText (data : Json) : Except PyError String := do
  let fields ← pyDictStrict data
  pure ("# Market Summary\n\n" ++ _format_dict_recursive fields 0 ++ "\n")

/-- Success rendering of the `chat_with_agricultural_advisor` branch. -/
def chatText (data : Json) : Except PyError String := do
  let sourcesV ← pyGetAttr data "sources" .null
  let sources_text ←
    if sourcesV.truthy then do
      let srcs ← pyIndex data "sources"
      let items ← pyListArg srcs
      pure ("\n\n## Sources\n" ++
        String.intercalate "\n" (items.map (fun s => "- " ++ s.render)))
    else pure ""
  let confidence_text ←
    if jsonHasKey data "confidence" then do
      let c ← pyIndex data "confidence"
      pure ("\n\n*Confidence: " ++ jsonPct0 c ++ "*")
    else pure ""
  let response ← pyIndex data "response"
  pure (response.render ++ sources_text ++ confidence_text)

/-- Success rendering of the `get_api_health` branch. -/
def healthText (data : Json) : Except PyError String := do
  let st ← pyGetAttr data "status" (.str "unknown")
  let db ← pyGetAttr data "database_connected" (.bool false)
  let ts ← pyGetAttr data "timestamp" (.str "N/A")
  pure ("# Plantos API Health\n\n**Status:** " ++ st.render ++
    "\n**Database Connected:** " ++ db.render ++
    "\n**Timestamp:** " ++ ts.render ++ "\n")

/-- One dispatch branch once its request is built: issue the call (recording
it), `raise_for_status`, then render the parsed body. -/
def callBranch (respond : Request → BackendReply) (req : Request)
    (render : Json → Except PyError String) : List Request × Except PyError String :=
  ([req],
    match respond req with
    | .exn msg => .error (.transport msg)
    | .ok statusCode jsonBody text => do
        raise_for_status statusCode text
        render jsonBody)

/-- Argument extraction before the branch's request is issued: a missing key
raises `KeyError` and no backend call happens. -/
def preReq (e : Except PyError Json) (k : Json → List Request × Except PyError String) :
    List Request × Except PyError String :=
  match e with
  | .error err => ([], .error err)
  | .ok v => k v

/-- The body of the `try` block of `handle_call_tool`: the branch-by-name
dispatch.  Returns the backend requests issued and the outcome of the block. -/
def handleBody (base apiKey name : String) (args : Obj)
    (respond : Request → BackendReply) : List Request × Except PyError String :=
  if name = "analyze_farm_location" then
    preReq (requireArg args "latitude") fun lat =>
    preReq (requireArg args "longitude") fun lon =>
    callBranch respond
      { method := .post, url := base ++ "/api/v1/analyze-location", params := [],
        reqBody := some (.obj (.cons "latitude" lat (.cons "longitude" lon .nil))),
        headers := stdHeaders apiKey }
      (analyzeLocationText lat lon)
  else if name = "get_soil_data" then
    preReq (requireArg args "latitude") fun lat =>
    preReq (requireArg args "longitude") fun lon =>
    callBranch respond
      { method := .get, url := base ++ "/api/v1/soil-data",
        params := [("latitude", lat), ("longitude", lon)], reqBody := none,
        headers := stdHeaders apiKey }
      (soilDataText lat lon)
  else if name = "get_weather_data" then
    preReq (requireArg args "latitude") fun lat =>
    preReq (requireArg args "longitude") fun lon =>
    callBranch respond
      { method := .get, url := base ++ "/api/v1/weather-data",
        params := [("latitude", lat), ("longitude", lon)], reqBody := none,
        headers := stdHeaders apiKey }
      (weatherDataText lat lon)
  else if name = "get_market_data" then
    preReq (requireArg args "crops") fun crops =>
    callBranch respond
      { method := .get, url := base ++ "/api/v1/market-data",
        params := [("crops", crops)] ++
          (match args.lookup "latitude" with | some v => [("latitude", v)] | none => []) ++
          (match args.lookup "longitude" with | some v => [("longitude", v)] | none => []),
        reqBody := none, headers := stdHeaders apiKey }
      marketDataText
  else if name = "get_market_summary" then
    callBranch respond
      { method := .get, url := base ++ "/api/v1/market-summary",
        params :=
          (match args.lookup "latitude" with | some v => [("latitude", v)] | none => []) ++
          (match args.lookup "longitude" with | some v => [("longitude", v)] | none => []),
        reqBody := none, headers := stdHeaders apiKey }
      marketSummaryText
  else if name = "chat_with_agricultural_advisor" then
    preReq (requireArg args "message") fun message =>
    callBranch respond
      { method := .post, url := base ++ "/api/v1/chat", params := [],
        reqBody := some (.obj (.cons "message" message
          (.cons "context" ((args.lookup "context").getD (.obj .nil)) .nil))),
        headers := stdHeaders apiKey }
      chatText
  else if name = "get_api_health" then
    callBranch respond
      { method := .get, url := base ++ "/api/v1/health", params := [], reqBody := none,
        headers := stdHeaders apiKey }
      healthText
  else
    ([], .ok ("Unknown tool: " ++ name))

/-- The 401/403 rendering of the `except httpx.HTTPStatusError` handler. -/
def authenticationErrorText (error_detail : String) : String :=
  "# Authentication Error\n\nYour Plantos API key is invalid or your subscription has expired.\n\n**To use Plantos agricultural intelligence:**\n1. Sign in or create an account at https://plantos.co\n2. Subscribe to a plan at https://plantos.co/billing\n3. Copy your API key from your dashboard\n4. Update your MCP configuration with the new API key\n\n**Error details:** " ++ error_detail ++ "\n"

/-- The generic rendering of other non-2xx statuses. -/
def backendErrorText (statusCode : Nat) (error_detail : String) : String :=
  "Error calling Plantos API: " ++ toString statusCode ++ "\n" ++ error_detail

/-- The single-quote character produced by `str(KeyError(...))`. -/
def quoteChar : Char := Char.ofNat 39

/-- `str(e)` for the exceptions reaching the trailing `except Exception`. -/
def pyStr : PyError → String
  | .keyError k => String.singleton quoteChar ++ k ++ String.singleton quoteChar
  | .httpStatus _ text => text
  | .transport msg => msg
  | .other msg => msg

/-- The `except` handlers of `handle_call_tool`: 401/403 backend statuses get
the remediation rendering, other non-2xx statuses the generic rendering, and
every other exception the `Error executing tool` rendering. -/
def renderOutcome : Except PyError String → String
  | .ok text => text
  | .error (.httpStatus statusCode error_detail) =>
      if statusCode = 401 ∨ statusCode = 403 then authenticationErrorText error_detail
      else backendErrorText statusCode error_detail
  | .error e => "Error executing tool: " ++ pyStr e

/-- `server.py` `handle_call_tool`: dispatch plus the exception handlers.
Returns the list of backend requests issued and the text of the single
`TextContent` returned to the caller. -/
def handle_call_tool (base apiKey : String) (name : String) (arguments : Option Obj)
    (respond : Request → BackendReply) : List Request × String :=
  let r := handleBody base apiKey name (arguments.getD .nil) respond
  (r.1, renderOutcome r.2)

/-- The tool names registered by `handle_list_tools`. -/
def toolNames : List String :=
  ["analyze_farm_location", "get_soil_data", "get_weather_data", "get_market_data",
   "get_market_summary", "chat_with_agricultural_advisor", "get_api_health"]

/-- A JSON number within declared bounds. -/
def numInRange (j : Json) (lo hi : Rat) : Bool :=
  match j with
  | .num q => decide (lo ≤ q) && decide (q ≤ hi)
  | _ => false

/-- A required coordinate field of the declared schema. -/
def requiredCoordB (args : Obj) (k : String) (lo hi : Rat) : Bool :=
  match args.lookup k with
  | some v => numInRange v lo hi
  | none => false

/-- An optional coordinate field of the declared schema. -/
def optionalCoordB (args : Obj) (k : String) (lo hi : Rat) : Bool :=
  match args.lookup k with
  | some v => numInRange v lo hi
  | none => true

/-- A present string-typed field. -/
def isStrField : Option Json → Bool
  | some (.str _) => true
  | _ => false

/-- Validity of an argument map against the `inputSchema` the tool declares in
`handle_list_tools`: required fields present with their declared types, numeric
bounds respected. -/
def schemaValidArgs : String → Obj → Bool
  | "analyze_farm_location", a =>
      requiredCoordB a "latitude" (-90) 90 && requiredCoordB a "longitude" (-180) 180
  | "get_soil_data", a =>
      requiredCoordB a "latitude" (-90) 90 && requiredCoordB a "longitude" (-180) 180
  | "get_weather_data", a =>
      requiredCoordB a "latitude" (-90) 90 && requiredCoordB a "longitude" (-180) 180
  | "get_market_data", a =>
      isStrField (a.lookup "crops") && optionalCoordB a "latitude" (-90) 90 &&
        optionalCoordB a "longitude" (-180) 180
  | "get_market_summary", a =>
      optionalCoordB a "latitude" (-90) 90 && optionalCoordB a "longitude" (-180) 180
  | "chat_with_agricultural_advisor", a =>
      isStrField (a.lookup "message") &&
        (match a.lookup "context" with
         | none => true
         | some (.obj _) => true
         | some _ => false)
  | "get_api_health", _ => true
  | _, _ => false

/-- The backend mapping of spec section 6, written from the spec's table: each
tool maps to one request with the stated method, path and parameter placement,
carrying the credential in the fixed header. -/
def specSection6Request (base apiKey name : String) (args : Obj) : Option Request :=
  if name = "analyze_farm_location" then
    match args.lookup "latitude", args.lookup "longitude" with
    | some lat, some lon =>
        some { method := .post, url := base ++ "/api/v1/analyze-location", params := [],
               reqBody := some (.obj (.cons "latitude" lat (.cons "longitude" lon .nil))),
               headers := stdHeaders apiKey }
    | _, _ => none
  else if name = "get_soil_data" then
    match args.lookup "latitude", args.lookup "longitude" with
    | some lat, some lon =>
        some { method := .get, url := base ++ "/api/v1/soil-data",
               params := [("latitude", lat), ("longitude", lon)], reqBody := none,
               headers := stdHeaders apiKey }
    | _, _ => none
  else if name = "get_weather_data" then
    match args.lookup "latitude", args.lookup "longitude" with
    | some lat, some lon =>
        some { method := .get, url := base ++ "/api/v1/weather-data",
               params := [("latitude", lat), ("longitude", lon)], reqBody := none,
               headers := stdHeaders apiKey }
    | _, _ => none
  else if name = "get_market_data" then
    match args.lookup "crops" with
    | some crops =>
        some { method := .get, url := base ++ "/api/v1/market-data",
               params := [("crops", crops)] ++
                 (match args.lookup "latitude" with | some v => [("latitude", v)] | none => []) ++
                 (match args.lookup "longitude" with | some v => [("longitude", v)] | none => []),
               reqBody := none, headers := stdHeaders apiKey }
    | none => none
  else if name = "get_market_summary" then
    some { method := .get, url := base ++ "/api/v1/market-summary",
           params :=
             (match args.lookup "latitude" with | some v => [("latitude", v)] | none => []) ++
             (match args.lookup "longitude" with | some v => [("longitude", v)] | none => []),
           reqBody := none, headers := stdHeaders apiKey }
  else if name = "chat_with_agricultural_advisor" then
    match args.lookup "message" with
    | some message =>
        some { method := .post, url := base ++ "/api/v1/chat", params := [],
               reqBody := some (.obj (.cons "message" message
                 (.cons "context" ((args.lookup "context").getD (.obj .nil)) .nil))),
               headers := stdHeaders apiKey }
    | none => none
  else if name = "get_api_health" then
    some { method := .get, url := base ++ "/api/v1/health", params := [], reqBody := none,
           headers := stdHeaders apiKey }
  else
    none

/-! ## The device-authorization flow (`installer/auth.py`) -/

/-- Parsed JSON body of the request-code response. -/
structure ReqCodeBody where
  code : Option String
  verification_url : Option String
  expires_in : Option Nat

/-- Outcome of the `requests.post` to `/api/v1/mcp/request-code`: an HTTP
response or an exception. -/
inductive ReqCodeReply where
  | http (statusCode : Nat) (resBody : ReqCodeBody)
  | exn (msg : String)

/-- Outcome of one poll iteration's `requests.get` to `/api/v1/mcp/check-code`:
an HTTP response (status code, parsed `status` and `api_key` fields), a
`requests.exceptions.Timeout`, or any other exception. -/
inductive CheckReply where
  | http (statusCode : Nat) (statusField : Option String) (api_key : Option String)
  | timeoutExn
  | otherExn (msg : String)

/-- Which `return` statement `authenticate_user` exits through. -/
inductive AuthOutcome where
  | requestHttpError (statusCode : Nat)   -- step 1: non-200 request-code response
  | invalidResponse                        -- step 1: missing code or verification_url
  | requestExn (msg : String)              -- step 1: exception
  | notFound                               -- polling: 404 status check
  | authorizedNoKey                        -- polling: authorized without api_key
  | authorized (api_key : String)          -- polling: success, credential returned
  | expired                                -- polling: explicit expired status
  | timedOut                               -- poll loop exhausted
deriving DecidableEq

/-- Instrumented result of the flow: the exit taken, the number of poll-loop
iterations run (each starts one `requests.get` status check) and the total
seconds spent in `time.sleep`. -/
structure FlowResult where
  outcome : AuthOutcome
  iterations : Nat
  sleepSeconds : Nat
deriving DecidableEq

/-- Python truthiness for an optional string (`if not code`). -/
def truthyOptStr : Option String → Bool
  | none => false
  | some s => s != ""

/-- The `for attempt in range(max_attempts)` polling loop of
`authenticate_user`: `attempt` is the current index, `remaining` how many
iterations of the range are left.  The non-200/non-404 branch `continue`s with
no sleep; the pending and exception branches sleep `poll_interval` seconds; a
response with an unrecognized status falls through the if/elif chain with no
sleep. -/
def pollLoop (replies : Nat → CheckReply) (poll_interval : Nat) :
    Nat → Nat → FlowResult
  | _, 0 => ⟨.timedOut, 0, 0⟩
  | attempt, remaining + 1 =>
    match replies attempt with
    | .http statusCode statusField api_key =>
        if statusCode ≠ 200 then
          if statusCode = 404 then ⟨.notFound, 1, 0⟩
          else
            let r := pollLoop replies poll_interval (attempt + 1) remaining
            ⟨r.outcome, r.iterations + 1, r.sleepSeconds⟩
        else if statusField = some "authorized" then
          if truthyOptStr api_key then ⟨.authorized (api_key.getD ""), 1, 0⟩
          else ⟨.authorizedNoKey, 1, 0⟩
        else if statusField = some "expired" then ⟨.expired, 1, 0⟩
        else if statusField = some "pending" then
          let r := pollLoop replies poll_interval (attempt + 1) remaining
          ⟨r.outcome, r.iterations + 1, r.sleepSeconds + poll_interval⟩
        else
          let r := pollLoop replies poll_interval (attempt + 1) remaining
          ⟨r.outcome, r.iterations + 1, r.sleepSeconds⟩
    | .timeoutExn =>
        let r := pollLoop replies poll_interval (attempt + 1) remaining
        ⟨r.outcome, r.iterations + 1, r.sleepSeconds + poll_interval⟩
    | .otherExn _ =>
        let r := pollLoop replies poll_interval (attempt + 1) remaining
        ⟨r.outcome, r.iterations + 1, r.sleepSeconds + poll_interval⟩

/-- `installer/auth.py` `authenticate_user`, as a function of the request-code
reply and of the check-code reply of each attempt.  `poll_interval` is fixed at
3 seconds; `expires_in` defaults to 300 when the response omits it;
`max_attempts = expires_in // poll_interval`. -/
def authenticate_user (req : ReqCodeReply) (replies : Nat → CheckReply) : FlowResult :=
  match req with
  | .exn msg => ⟨.requestExn msg, 0, 0⟩
  | .http statusCode resBody =>
      if statusCode ≠ 200 then ⟨.requestHttpError statusCode, 0, 0⟩
      else if !truthyOptStr resBody.code || !truthyOptStr resBody.verification_url then
        ⟨.invalidResponse, 0, 0⟩
      else
        let expires_in := resBody.expires_in.getD 300
        let poll_interval := 3
        let max_attempts := expires_in / poll_interval
        pollLoop replies poll_interval 0 max_attempts

/-! ## The HTTP transport (`http_call_tool`) -/

/-- Reply of the `/mcp/call-tool` endpoint: a fastapi `HTTPException` or the
JSON result object `{content, isError}`. -/
inductive HttpReply where
  | httpError (statusCode : Nat)
  | result (content : List String) (isError : Bool)

/-- The `isError` flag of a successful reply. -/
def HttpReply.isErrorFlag : HttpReply → Option Bool
  | .httpError _ => none
  | .result _ e => some e

/-- `verify_api_key`: a missing or empty `X-API-Key` header raises a 401
`HTTPException`. -/
def verify_api_key (x_api_key : Option String) : Option Nat :=
  if truthyOptStr x_api_key then none else some 401

/-- The name string a JSON `name` field denotes once interpolated or compared
by the dispatch. -/
def jsonFieldName : Json → String
  | .str s => s
  | v => v.render

/-- A JSON value used where the code expects the `arguments` dict. -/
def Json.objFieldsD : Json → Obj
  | .obj fields => fields
  | _ => .nil

/-- `server.py` `http_call_tool` for one request: header check, body-field
checks, then the credential-swapped call into `handle_call_tool`.  The source
wraps that call in `try/except`, but `handle_call_tool` already catches every
`Exception` and returns the error as text, so the translation of the `try`
block returns `isError := False` directly; the `except` branch has no
reachable counterpart. -/
def http_call_tool (base : String) (api_key : Option String) (reqBody : Obj)
    (respond : Request → BackendReply) : HttpReply :=
  match verify_api_key api_key with
  | some statusCode => .httpError statusCode
  | none =>
    let tool_name := reqBody.lookup "name"
    let arguments := (reqBody.lookup "arguments").getD (.obj .nil)
    match tool_name with
    | none => .httpError 400
    | some j =>
        if !j.truthy then .httpError 400
        else
          let r := handle_call_tool base (api_key.getD "") (jsonFieldName j)
                     (some arguments.objFieldsD) respond
          .result [r.2] false

/-! ## Credential swapping under concurrency (HTTP mode)

`http_call_tool` saves the module global `PLANTOS_API_KEY`, overwrites it with
the request's header credential, runs `handle_call_tool` (which reads the
global when building the backend headers), and restores it in a `finally`
block.  The save, the read and the restore are separated by `await` points
(entering the `httpx.AsyncClient` context and performing the backend call), so
the steps of concurrent requests may interleave. -/

/-- Progress of one request handler through the swap section: pc 0 = about to
save and overwrite the global, pc 1 = about to read the global into the backend
headers, pc 2 = about to restore in `finally`, pc 3 = finished. -/
structure SwapThread where
  pc : Nat
  saved : Option String      -- original_key
  usedKey : Option String    -- the X-API-Key value this request's backend call carries
deriving DecidableEq

/-- The shared global `PLANTOS_API_KEY` plus two in-flight request handlers. -/
structure SwapState where
  plantosApiKey : String
  req1 : SwapThread
  req2 : SwapThread
deriving DecidableEq

/-- One atomic step of a handler whose request carried credential `ownKey`:
returns the new value of the global and the new thread state. -/
def swapStep (ownKey : String) (globalKey : String) (t : SwapThread) : String × SwapThread :=
  match t.pc with
  | 0 => (ownKey, { t with pc := 1, saved := some globalKey })
  | 1 => (globalKey, { t with pc := 2, usedKey := some globalKey })
  | 2 => (t.saved.getD globalKey, { t with pc := 3 })
  | _ => (globalKey, t)

/-- Interleaved execution of two concurrent requests: `false` advances request
1 (credential `k1`), `true` advances request 2 (credential `k2`). -/
def swapRun (k1 k2 : String) (sched : List Bool) (s : SwapState) : SwapState :=
  match sched with
  | [] => s
  | tid :: rest =>
      let s2 :=
        if tid then
          let (g, t) := swapStep k2 s.plantosApiKey s.req2
          { s with plantosApiKey := g, req2 := t }
        else
          let (g, t) := swapStep k1 s.plantosApiKey s.req1
          { s with plantosApiKey := g, req1 := t }
      swapRun k1 k2 rest s2

/-! ## Remaining observation helpers -/

/-- A check-code HTTP response whose status is neither 200 nor 404 (the branch
of the poll loop that `continue`s without sleeping). -/
def isErrStatusReply : CheckReply → Bool
  | .http statusCode _ _ => decide (statusCode ≠ 200) && decide (statusCode ≠ 404)
  | _ => false

/-- First character of a string. -/
def firstCharOf (s : String) : Option Char := s.data.head?

/-! ## Helper lemmas -/

theorem firstCharOf_append (a b : String) :
    firstCharOf (a ++ b) = (firstCharOf a).orElse (fun _ => firstCharOf b) := by
  cases a with
  | mk l => cases b with
    | mk m => cases l <;> rfl

theorem authErrorText_ne_backendErrorText (d1 : String) (s : Nat) (d2 : String) :
    authenticationErrorText d1 ≠ backendErrorText s d2 := by
  intro h
  have hh := congrArg firstCharOf h
  rw [authenticationErrorText, backendErrorText] at hh
  simp only [firstCharOf_append] at hh
  have hb : firstCharOf "# Authentication Error\n\nYour Plantos API key is invalid or your subscription has expired.\n\n**To use Plantos agricultural intelligence:**\n1. Sign in or create an account at https://plantos.co\n2. Subscribe to a plan at https://plantos.co/billing\n3. Copy your API key from your dashboard\n4. Update your MCP configuration with the new API key\n\n**Error details:** " = some '#' := rfl
  have he : firstCharOf "Error calling Plantos API: " = some 'E' := rfl
  rw [hb, he] at hh
  simp [Option.orElse] at hh

theorem error_bind {α β : Type} (e : PyError) (f : α → Except PyError β) :
    (Except.error e : Except PyError α) >>= f = .error e := rfl

theorem requiredCoordB_some (args : Obj) (k : String) (lo hi : Rat)
    (h : requiredCoordB args k lo hi = true) : ∃ v, args.lookup k = some v := by
  unfold requiredCoordB at h
  cases hl : args.lookup k with
  | none => rw [hl] at h; simp at h
  | some v => exact ⟨v, rfl⟩

theorem isStrField_some (o : Option Json) (h : isStrField o = true) : ∃ v, o = some v := by
  cases o with
  | none => simp [isStrField] at h
  | some v => exact ⟨v, rfl⟩

theorem pollLoop_iterations_le (replies : Nat → CheckReply) (p : Nat) :
    ∀ (m a : Nat), (pollLoop replies p a m).iterations ≤ m := by
  intro m
  induction m with
  | zero => intro a; simp [pollLoop]
  | succ n ih =>
      intro a
      have h := ih (a + 1)
      unfold pollLoop
      cases hr : replies a with
      | http s st k =>
          dsimp only
          split
          · split
            · simp
            · simpa using Nat.succ_le_succ h
          · split
            · split <;> simp
            · split
              · simp
              · split
                · simpa using Nat.succ_le_succ h
                · simpa using Nat.succ_le_succ h
      | timeoutExn => simpa using Nat.succ_le_succ h
      | otherExn msg => simpa using Nat.succ_le_succ h

theorem pollLoop_all_pending (replies : Nat → CheckReply) (p : Nat) :
    ∀ (m a : Nat), (∀ i, i < m → replies (a + i) = .http 200 (some "pending") none) →
      pollLoop replies p a m = ⟨.timedOut, m, p * m⟩ := by
  intro m
  induction m with
  | zero => intro a _; simp [pollLoop]
  | succ n ih =>
      intro a hall
      have h0 : replies a = .http 200 (some "pending") none := by
        simpa using hall 0 (Nat.succ_pos n)
      have hrec := ih (a + 1) (fun i hi => by
        have hx := hall (i + 1) (Nat.succ_lt_succ hi)
        rw [show a + 1 + i = a + (i + 1) by omega]
        exact hx)
      unfold pollLoop
      rw [h0]
      simp [truthyOptStr, hrec, Nat.mul_succ]

theorem pollLoop_all_errstatus (replies : Nat → CheckReply) (p : Nat) :
    ∀ (m a : Nat), (∀ i, i < m → isErrStatusReply (replies (a + i)) = true) →
      pollLoop replies p a m = ⟨.timedOut, m, 0⟩ := by
  intro m
  induction m with
  | zero => intro a _; simp [pollLoop]
  | succ n ih =>
      intro a hall
      have h0 : isErrStatusReply (replies a) = true := by
        simpa using hall 0 (Nat.succ_pos n)
      have hrec := ih (a + 1) (fun i hi => by
        have hx := hall (i + 1) (Nat.succ_lt_succ hi)
        rw [show a + 1 + i = a + (i + 1) by omega]
        exact hx)
      unfold pollLoop
      cases hr : replies a with
      | http s st k =>
          rw [hr] at h0
          simp only [isErrStatusReply, Bool.and_eq_true, decide_eq_true_eq] at h0
          obtain ⟨h200, h404⟩ := h0
          simp [h200, h404, hrec]
      | timeoutExn => rw [hr] at h0; simp [isErrStatusReply] at h0
      | otherExn msg => rw [hr] at h0; simp [isErrStatusReply] at h0

theorem pollLoop_pend_pend_auth (replies : Nat → CheckReply) (key : String) (n : Nat)
    (hkey : key ≠ "")
    (h0 : replies 0 = .http 200 (some "pending") none)
    (h1 : replies 1 = .http 200 (some "pending") none)
    (h2 : replies 2 = .http 200 (some "authorized") (some key)) :
    pollLoop replies 3 0 (n + 3) = ⟨.authorized key, 3, 6⟩ := by
  have hkb : (key != "") = true := by simpa using hkey
  have e2 : pollLoop replies 3 2 (n + 1) = ⟨.authorized key, 1, 0⟩ := by
    unfold pollLoop
    rw [h2]
    simp [truthyOptStr, hkb]
  have e1 : pollLoop replies 3 1 (n + 2) = ⟨.authorized key, 2, 3⟩ := by
    unfold pollLoop
    rw [h1]
    simp [truthyOptStr, e2]
  unfold pollLoop
  rw [h0]
  simp [truthyOptStr, e1]

theorem authenticate_user_poll (resBody : ReqCodeBody) (replies : Nat → CheckReply)
    (hcode : truthyOptStr resBody.code = true)
    (hurl : truthyOptStr resBody.verification_url = true) :
    authenticate_user (.http 200 resBody) replies =
      pollLoop replies 3 0 (resBody.expires_in.getD 300 / 3) := by
  simp [authenticate_user, hcode, hurl]

theorem handleBody_valid (base apiKey name : String) (args : Obj)
    (respond : Request → BackendReply)
    (hname : name ∈ toolNames) (hvalid : schemaValidArgs name args = true) :
    (specSection6Request base apiKey name args).isSome = true ∧
    (handleBody base apiKey name args respond).1 =
      (specSection6Request base apiKey name args).toList ∧
    (∀ statusCode b detail, respond = (fun _ => BackendReply.ok statusCode b detail) →
      ¬(200 ≤ statusCode ∧ statusCode ≤ 299) →
      (handleBody base apiKey name args respond).2 =
        .error (.httpStatus statusCode detail)) := by
  simp only [toolNames, List.mem_cons, List.not_mem_nil, or_false] at hname
  rcases hname with rfl | rfl | rfl | rfl | rfl | rfl | rfl
  · simp only [schemaValidArgs, Bool.and_eq_true] at hvalid
    obtain ⟨vlat, hl⟩ := requiredCoordB_some _ _ _ _ hvalid.1
    obtain ⟨vlon, hw⟩ := requiredCoordB_some _ _ _ _ hvalid.2
    refine ⟨by simp [specSection6Request, hl, hw], ?_, ?_⟩
    · simp [handleBody, preReq, requireArg, hl, hw, callBranch, specSection6Request]
    · intro s b detail hr hnot
      subst hr
      simp [handleBody, preReq, requireArg, hl, hw, callBranch, raise_for_status, hnot, error_bind]
  · simp only [schemaValidArgs, Bool.and_eq_true] at hvalid
    obtain ⟨vlat, hl⟩ := requiredCoordB_some _ _ _ _ hvalid.1
    obtain ⟨vlon, hw⟩ := requiredCoordB_some _ _ _ _ hvalid.2
    refine ⟨by simp [specSection6Request, hl, hw], ?_, ?_⟩
    · simp [handleBody, preReq, requireArg, hl, hw, callBranch, specSection6Request]
    · intro s b detail hr hnot
      subst hr
      simp [handleBody, preReq, requireArg, hl, hw, callBranch, raise_for_status, hnot, error_bind]
  · simp only [schemaValidArgs, Bool.and_eq_true] at hvalid
    obtain ⟨vlat, hl⟩ := requiredCoordB_some _ _ _ _ hvalid.1
    obtain ⟨vlon, hw⟩ := requiredCoordB_some _ _ _ _ hvalid.2
    refine ⟨by simp [specSection6Request, hl, hw], ?_, ?_⟩
    · simp [handleBody, preReq, requireArg, hl, hw, callBranch, specSection6Request]
    · intro s b detail hr hnot
      subst hr
      simp [handleBody, preReq, requireArg, hl, hw, callBranch, raise_for_status, hnot, error_bind]
  · simp only [schemaValidArgs, Bool.and_eq_true] at hvalid
    obtain ⟨vcrops, hc⟩ := isStrField_some _ hvalid.1.1
    refine ⟨by simp [specSection6Request, hc], ?_, ?_⟩
    · simp [handleBody, preReq, requireArg, hc, callBranch, specSection6Request]
    · intro s b detail hr hnot
      subst hr
      simp [handleBody, preReq, requireArg, hc, callBranch, raise_for_status, hnot, error_bind]
  · refine ⟨by simp [specSection6Request], ?_, ?_⟩
    · simp [handleBody, callBranch, specSection6Request]
    · intro s b detail hr hnot
      subst hr
      simp [handleBody, callBranch, raise_for_status, hnot, error_bind]
  · simp only [schemaValidArgs, Bool.and_eq_true] at hvalid
    obtain ⟨vmsg, hm⟩ := isStrField_some _ hvalid.1
    refine ⟨by simp [specSection6Request, hm], ?_, ?_⟩
    · simp [handleBody, preReq, requireArg, hm, callBranch, specSection6Request]
    · intro s b detail hr hnot
      subst hr
      simp [handleBody, preReq, requireArg, hm, callBranch, raise_for_status, hnot, error_bind]
  · refine ⟨by simp [specSection6Request], ?_, ?_⟩
    · simp [handleBody, callBranch, specSection6Request]
    · intro s b detail hr hnot
      subst hr
      simp [handleBody, callBranch, raise_for_status, hnot, error_bind]

/-! ## Claim theorems -/

/-- Claim C1, refuting evidence: the HTTP transport passes the per-request
credential through the shared module global `PLANTOS_API_KEY`.  Under the
interleaving in which both concurrent handlers save-and-overwrite the global
before either reads it, request 1's backend call carries request 2's
credential `keyB` instead of its own `keyA` (and the nested `finally`
restores leave the global stuck at `keyA` afterwards), so the claimed
isolation fails on the code as written. -/
theorem concurrent_credential_leak :
    (swapRun "keyA" "keyB" [false, true, false, true, false, true]
        ⟨"envKey", ⟨0, none, none⟩, ⟨0, none, none⟩⟩).req1.usedKey = some "keyB" ∧
    (swapRun "keyA" "keyB" [false, true, false, true, false, true]
        ⟨"envKey", ⟨0, none, none⟩, ⟨0, none, none⟩⟩).req2.usedKey = some "keyB" ∧
    (swapRun "keyA" "keyB" [false, true, false, true, false, true]
        ⟨"envKey", ⟨0, none, none⟩, ⟨0, none, none⟩⟩).req1.pc = 3 ∧
    (swapRun "keyA" "keyB" [false, true, false, true, false, true]
        ⟨"envKey", ⟨0, none, none⟩, ⟨0, none, none⟩⟩).req2.pc = 3 ∧
    (swapRun "keyA" "keyB" [false, true, false, true, false, true]
        ⟨"envKey", ⟨0, none, none⟩, ⟨0, none, none⟩⟩).plantosApiKey = "keyA" ∧
    ("keyB" : String) ≠ "keyA" :=
  ⟨rfl, rfl, rfl, rfl, rfl, by decide⟩

/-- Claim C2, refuting evidence: invoked as `get_soil_data` with latitude 91
(outside [-90, 90]), the dispatcher performs no range validation: it issues
exactly one backend GET to `/api/v1/soil-data` carrying latitude 91 in the
query, and returns the formatted backend response rather than any
InvalidArguments failure. -/
theorem out_of_range_latitude_forwarded :
    handle_call_tool "https://api.plantos.co" "KEY" "get_soil_data"
        (some (.ofList [("latitude", .num 91), ("longitude", .num 0)]))
        (fun _ => .ok 200 (.obj .nil) "") =
      ([{ method := .get, url := "https://api.plantos.co/api/v1/soil-data",
          params := [("latitude", .num 91), ("longitude", .num 0)], reqBody := none,
          headers := [("X-API-Key", "KEY"), ("Content-Type", "application/json")] }],
        "# Soil Data for 91, 0\n\n*No soil data available*\n") ∧
    numInRange (.num 91) (-90) 90 = false :=
  ⟨rfl, rfl⟩

/-- Claim C3: after a successful request-code step, the poll loop performs at
most `floor(expires_in / 3)` status-check attempts (`expires_in` read from the
response, defaulting to 300 when absent; the poll interval is 3 seconds), and
whenever every one of those attempts answers `pending` the flow exits through
the timeout return — no credential — after exactly that many attempts. -/
theorem device_flow_all_pending_times_out
    (resBody : ReqCodeBody) (replies : Nat → CheckReply)
    (hcode : truthyOptStr resBody.code = true)
    (hurl : truthyOptStr resBody.verification_url = true) :
    (authenticate_user (.http 200 resBody) replies).iterations ≤
      resBody.expires_in.getD 300 / 3 ∧
    ((∀ i, i < resBody.expires_in.getD 300 / 3 →
        replies i = .http 200 (some "pending") none) →
      authenticate_user (.http 200 resBody) replies =
        ⟨.timedOut, resBody.expires_in.getD 300 / 3,
         3 * (resBody.expires_in.getD 300 / 3)⟩) := by
  rw [authenticate_user_poll resBody replies hcode hurl]
  constructor
  · exact pollLoop_iterations_le replies 3 _ 0
  · intro hall
    exact pollLoop_all_pending replies 3 _ 0 (fun i hi => by simpa using hall i hi)

/-- Witness for C3 at a concrete input: request-code succeeds with
`expires_in` absent (default 300, hence 100 attempts) and every check answers
`pending`; the flow times out after exactly 100 attempts and 300 seconds of
sleep. -/
theorem device_flow_all_pending_times_out_witness :
    truthyOptStr (some "CODE") = true ∧
    (authenticate_user
        (.http 200 ⟨some "CODE", some "https://plantos.co/verify", none⟩)
        (fun _ => .http 200 (some "pending") none)).iterations ≤ 100 ∧
    authenticate_user
        (.http 200 ⟨some "CODE", some "https://plantos.co/verify", none⟩)
        (fun _ => .http 200 (some "pending") none) = ⟨.timedOut, 100, 300⟩ := by
  have h := device_flow_all_pending_times_out
    ⟨some "CODE", some "https://plantos.co/verify", none⟩
    (fun _ => .http 200 (some "pending") none) (by rfl) (by rfl)
  exact ⟨by rfl, h.1, h.2 (fun i _ => rfl)⟩

/-- Claim C4: for every catalog tool name with schema-valid arguments, the
dispatcher issues exactly one backend request, and that request is exactly the
one the spec's section-6 mapping prescribes (method, path, query/body
placement, and the credential in the fixed `X-API-Key` header). -/
theorem known_tool_single_backend_call (base apiKey name : String) (args : Obj)
    (respond : Request → BackendReply)
    (hname : name ∈ toolNames) (hvalid : schemaValidArgs name args = true) :
    (specSection6Request base apiKey name args).isSome = true ∧
    (handle_call_tool base apiKey name (some args) respond).1 =
      (specSection6Request base apiKey name args).toList := by
  have h := handleBody_valid base apiKey name args respond hname hvalid
  exact ⟨h.1, h.2.1⟩

/-- Witness for C4 at a concrete input: `get_market_data` with a crops string
and an in-range optional latitude. -/
theorem known_tool_single_backend_call_witness :
    ("get_market_data" ∈ toolNames) ∧
    schemaValidArgs "get_market_data"
      (.ofList [("crops", .str "corn,soybeans,wheat"), ("latitude", .num 41)]) = true ∧
    ((specSection6Request "https://api.plantos.co" "KEY" "get_market_data"
        (.ofList [("crops", .str "corn,soybeans,wheat"), ("latitude", .num 41)])).isSome = true ∧
      (handle_call_tool "https://api.plantos.co" "KEY" "get_market_data"
        (some (.ofList [("crops", .str "corn,soybeans,wheat"), ("latitude", .num 41)]))
        (fun _ => .ok 200 (.obj .nil) "")).1 =
      (specSection6Request "https://api.plantos.co" "KEY" "get_market_data"
        (.ofList [("crops", .str "corn,soybeans,wheat"), ("latitude", .num 41)])).toList) :=
  ⟨by decide, by rfl,
   known_tool_single_backend_call "https://api.plantos.co" "KEY" "get_market_data"
     (.ofList [("crops", .str "corn,soybeans,wheat"), ("latitude", .num 41)])
     (fun _ => .ok 200 (.obj .nil) "") (by decide) (by rfl)⟩

/-- Claim C5: when the request-code step succeeds (with at least 9 seconds of
expiry window, as the default 300 provides) and the status checks answer
`pending`, `pending`, then `authorized` with an api_key, the flow returns that
api_key after exactly 3 polls (having slept twice). -/
theorem device_flow_authorized_after_three_polls
    (resBody : ReqCodeBody) (replies : Nat → CheckReply) (key : String)
    (hcode : truthyOptStr resBody.code = true)
    (hurl : truthyOptStr resBody.verification_url = true)
    (hexp : 9 ≤ resBody.expires_in.getD 300)
    (hkey : key ≠ "")
    (h0 : replies 0 = .http 200 (some "pending") none)
    (h1 : replies 1 = .http 200 (some "pending") none)
    (h2 : replies 2 = .http 200 (some "authorized") (some key)) :
    authenticate_user (.http 200 resBody) replies = ⟨.authorized key, 3, 6⟩ := by
  rw [authenticate_user_poll resBody replies hcode hurl]
  obtain ⟨n, hn⟩ : ∃ n, resBody.expires_in.getD 300 / 3 = n + 3 := by
    have h3 : 3 ≤ resBody.expires_in.getD 300 / 3 := by
      have hd := Nat.div_le_div_right (c := 3) hexp
      simpa using hd
    exact ⟨resBody.expires_in.getD 300 / 3 - 3, by omega⟩
  rw [hn]
  exact pollLoop_pend_pend_auth replies key n hkey h0 h1 h2

/-- Witness for C5 at a concrete input. -/
theorem device_flow_authorized_after_three_polls_witness :
    truthyOptStr (some "CODE") = true ∧ (9 : Nat) ≤ 300 ∧ ("NEWKEY" : String) ≠ "" ∧
    authenticate_user
        (.http 200 ⟨some "CODE", some "https://plantos.co/verify", none⟩)
        (fun i => if i = 2 then .http 200 (some "authorized") (some "NEWKEY")
                  else .http 200 (some "pending") none) =
      ⟨.authorized "NEWKEY", 3, 6⟩ :=
  ⟨by rfl, by decide, by decide,
   device_flow_authorized_after_three_polls
     ⟨some "CODE", some "https://plantos.co/verify", none⟩
     (fun i => if i = 2 then .http 200 (some "authorized") (some "NEWKEY")
               else .http 200 (some "pending") none)
     "NEWKEY" (by rfl) (by rfl) (by decide) (by decide) rfl rfl rfl⟩

/-- Claim C6: a tool invocation whose backend call answers 401 or 403 is
rendered as the authentication rejection (the remediation text of the
`except httpx.HTTPStatusError` handler, carrying the error details), and that
rendering is never equal to the generic backend-error rendering that carries
only the status code and raw body. -/
theorem unauthorized_status_renders_remediation (base apiKey name : String) (args : Obj)
    (respond : Request → BackendReply) (statusCode : Nat) (b : Json) (detail : String)
    (hname : name ∈ toolNames) (hvalid : schemaValidArgs name args = true)
    (hresp : ∀ req, respond req = .ok statusCode b detail)
    (hstatus : statusCode = 401 ∨ statusCode = 403) :
    (handle_call_tool base apiKey name (some args) respond).2 =
      authenticationErrorText detail ∧
    (∀ s2 d2, authenticationErrorText detail ≠ backendErrorText s2 d2) := by
  have h := handleBody_valid base apiKey name args respond hname hvalid
  have hr : respond = fun _ => BackendReply.ok statusCode b detail := funext hresp
  have hnot : ¬(200 ≤ statusCode ∧ statusCode ≤ 299) := by
    rcases hstatus with rfl | rfl <;> omega
  have h2 := h.2.2 statusCode b detail hr hnot
  constructor
  · show renderOutcome (handleBody base apiKey name args respond).2 = _
    rw [h2]
    rcases hstatus with rfl | rfl <;> simp [renderOutcome]
  · exact fun s2 d2 => authErrorText_ne_backendErrorText detail s2 d2

/-- Witness for C6 at a concrete input: `get_api_health` against a backend
answering 401. -/
theorem unauthorized_status_renders_remediation_witness :
    ("get_api_health" ∈ toolNames) ∧
    schemaValidArgs "get_api_health" .nil = true ∧
    ((handle_call_tool "https://api.plantos.co" "KEY" "get_api_health" (some .nil)
        (fun _ => .ok 401 (.obj .nil) "invalid api key")).2 =
      authenticationErrorText "invalid api key" ∧
     (∀ s2 d2, authenticationErrorText "invalid api key" ≠ backendErrorText s2 d2)) :=
  ⟨by decide, by rfl,
   unauthorized_status_renders_remediation "https://api.plantos.co" "KEY" "get_api_health"
     .nil (fun _ => .ok 401 (.obj .nil) "invalid api key") 401 (.obj .nil) "invalid api key"
     (by decide) (by rfl) (fun _ => rfl) (Or.inl rfl)⟩

/-- Claim C7: invoking any name outside the catalog returns the text
`Unknown tool: <name>` and issues no backend request at all. -/
theorem unknown_tool_no_backend_call (base apiKey name : String) (arguments : Option Obj)
    (respond : Request → BackendReply) (hname : name ∉ toolNames) :
    handle_call_tool base apiKey name arguments respond =
      ([], "Unknown tool: " ++ name) := by
  simp only [toolNames, List.mem_cons, List.not_mem_nil, or_false, not_or] at hname
  obtain ⟨h1, h2, h3, h4, h5, h6, h7⟩ := hname
  simp [handle_call_tool, handleBody, renderOutcome, h1, h2, h3, h4, h5, h6, h7]

/-- Witness for C7 at a concrete input. -/
theorem unknown_tool_no_backend_call_witness :
    ("frobnicate" ∉ toolNames) ∧
    handle_call_tool "https://api.plantos.co" "KEY" "frobnicate" (some .nil)
        (fun _ => .ok 200 (.obj .nil) "") = ([], "Unknown tool: frobnicate") :=
  ⟨by decide,
   unknown_tool_no_backend_call "https://api.plantos.co" "KEY" "frobnicate" (some .nil)
     (fun _ => .ok 200 (.obj .nil) "") (by decide)⟩

/-- Claim C8: each data-category formatter applied to a payload with all
fields absent returns its explicit non-empty "no data" marker and (being a
total function) does not raise. -/
theorem formatters_render_no_data_markers :
    (_format_soil_data .nil = "*No soil data available*" ∧
      "*No soil data available*" ≠ "") ∧
    (_format_weather_data .nil = "*No weather data available*" ∧
      "*No weather data available*" ≠ "") ∧
    (_format_crop_predictions [] = "*No predictions available*" ∧
      "*No predictions available*" ≠ "") ∧
    (_format_market_data [] = "*No market data available*" ∧
      "*No market data available*" ≠ "") ∧
    (_format_economic_analysis [] = "*No economic analysis available*" ∧
      "*No economic analysis available*" ≠ "") ∧
    (_format_recommendations [] = "*No recommendations available*" ∧
      "*No recommendations available*" ≠ "") :=
  ⟨⟨rfl, by decide⟩, ⟨rfl, by decide⟩, ⟨rfl, by decide⟩, ⟨rfl, by decide⟩,
   ⟨rfl, by decide⟩, ⟨rfl, by decide⟩⟩

/-- Claim C9: a status-check response with a status other than 200 and 404
consumes one attempt of the budget and `continue`s with no sleep, so under
persistently erroring checks the flow exhausts all `floor(expires_in / 3)`
attempts with zero seconds of sleep and returns through the timeout exit —
whereas all-`pending` checks over the same window sleep 3 seconds each. -/
theorem error_status_polls_consume_attempts_without_sleep
    (resBody : ReqCodeBody) (replies : Nat → CheckReply)
    (hcode : truthyOptStr resBody.code = true)
    (hurl : truthyOptStr resBody.verification_url = true)
    (herr : ∀ i, i < resBody.expires_in.getD 300 / 3 →
        isErrStatusReply (replies i) = true) :
    authenticate_user (.http 200 resBody) replies =
      ⟨.timedOut, resBody.expires_in.getD 300 / 3, 0⟩ ∧
    (∀ pend : Nat → CheckReply,
      (∀ i, pend i = .http 200 (some "pending") none) →
      authenticate_user (.http 200 resBody) pend =
        ⟨.timedOut, resBody.expires_in.getD 300 / 3,
         3 * (resBody.expires_in.getD 300 / 3)⟩) := by
  constructor
  · rw [authenticate_user_poll resBody replies hcode hurl]
    exact pollLoop_all_errstatus replies 3 _ 0 (fun i hi => by simpa using herr i hi)
  · intro pend hp
    rw [authenticate_user_poll resBody pend hcode hurl]
    exact pollLoop_all_pending pend 3 _ 0 (fun i _ => by simpa using hp (0 + i))

/-- Witness for C9 at a concrete input: a 30-second window (10 attempts) of
persistent 500 responses times out with zero sleep. -/
theorem error_status_polls_consume_attempts_without_sleep_witness :
    isErrStatusReply (.http 500 none none) = true ∧
    (authenticate_user (.http 200 ⟨some "CODE", some "https://plantos.co/verify", some 30⟩)
        (fun _ => .http 500 none none) = ⟨.timedOut, 10, 0⟩ ∧
     (∀ pend : Nat → CheckReply,
       (∀ i, pend i = .http 200 (some "pending") none) →
       authenticate_user (.http 200 ⟨some "CODE", some "https://plantos.co/verify", some 30⟩)
         pend = ⟨.timedOut, 10, 30⟩)) :=
  ⟨by rfl,
   error_status_polls_consume_attempts_without_sleep
     ⟨some "CODE", some "https://plantos.co/verify", some 30⟩
     (fun _ => .http 500 none none) (by rfl) (by rfl) (fun _ _ => rfl)⟩

/-- Claim C10: an HTTP-transport call-tool request with a non-empty credential
header and a truthy `name` field always gets `isError = False`: the tool
handler catches every exception and returns failures as text, so the
transport's `isError = True` branch is unreachable. -/
theorem http_call_tool_isError_always_false (base key : String) (reqBody : Obj)
    (respond : Request → BackendReply) (j : Json)
    (hkey : key ≠ "") (hname : reqBody.lookup "name" = some j)
    (hj : j.truthy = true) :
    (http_call_tool base (some key) reqBody respond).isErrorFlag = some false := by
  have hk : truthyOptStr (some key) = true := by simp [truthyOptStr, hkey]
  simp [http_call_tool, verify_api_key, hk, hname, hj, HttpReply.isErrorFlag]

/-- Witness for C10 at a concrete input: the named tool does not even exist,
so the execution fails (as text), yet `isError` is still `False`. -/
theorem http_call_tool_isError_always_false_witness :
    ("K" : String) ≠ "" ∧
    (JsonObj.ofList [("name", .str "frobnicate")]).lookup "name" =
      some (.str "frobnicate") ∧
    (Json.str "frobnicate").truthy = true ∧
    (http_call_tool "https://api.plantos.co" (some "K")
        (.ofList [("name", .str "frobnicate")])
        (fun _ => .ok 200 (.obj .nil) "")).isErrorFlag = some false :=
  ⟨by decide, rfl, rfl,
   http_call_tool_isError_always_false "https://api.plantos.co" "K"
     (.ofList [("name", .str "frobnicate")]) (fun _ => .ok 200 (.obj .nil) "")
     (.str "frobnicate") (by decide) rfl rfl⟩

end Plantos
